import Mathlib

/-!
Shallow embedding of `src/services/nlp_analyzer.py` (class `NLPAnalyzer`).

Floats are modelled as rationals, vectors as lists of rationals, Python
exceptions as `Except`/`Option` values.  The two external collaborators
(classifier and embedding generator) are modelled as function-valued fields
of a `Collaborators` record; a call that raises is a field returning
`.error`.  The `try/except` blocks of the source that catch exceptions from
Python-level record construction (`ClauseAnalysis(...)`) or from anywhere in
the batch body are modelled by explicit fault oracles
(`construct_fault`, `batch_fault`): `some msg` means the corresponding
exception is raised there with message `msg`, `none` means it is not.
Logging is modelled only where it observes state: the low-confidence
warning of `analyze_clause`, which is the one place the single-clause path
reads the configured threshold.
-/

/-- A contract clause (`models.clause.Clause`): identifier plus raw text. -/
structure Clause where
  clause_id : String
  text : String
  deriving Repr, DecidableEq

/-- An embedding vector (`List[float]` in the source). -/
abbrev Embedding := List ℚ

/-- The analysis record (`models.clause_analysis.ClauseAnalysis`). -/
structure ClauseAnalysis where
  clause_id : String
  clause_text : String
  clause_type : String
  confidence_score : ℚ
  embeddings : Option Embedding
  alternative_types : List (String × ℚ)
  deriving Repr, DecidableEq

/-- The `InferenceError` raised by `analyze_clause` when classification
fails: its message and the `clause_id` carried in its `details`. -/
structure InferenceError where
  message : String
  clause_id : String
  deriving Repr, DecidableEq

/-- A classifier result: `(category, confidence, alternatives)` as returned
by `LegalBERTClassifier.predict`. -/
abbrev Classification := String × ℚ × List (String × ℚ)

/-- The external collaborators consumed by the orchestrator, plus the fault
oracles for the exceptions caught by the source's outer `try/except`
handlers (see the module docstring). -/
structure Collaborators where
  predict : String → Except String Classification
  generate_embedding : String → Except String Embedding
  generate_embeddings_batch : List String → Bool → Nat → Except String (List (Option Embedding))
  construct_fault : Clause → Option String
  batch_fault : Option String

/-- The orchestrator's own mutable state: the configured confidence
threshold (default 0.75 in `__init__`). -/
structure NLPAnalyzer where
  confidence_threshold : ℚ
  deriving Repr, DecidableEq

/-- A log event observable from the outside; only the threshold-dependent
low-confidence warning of `analyze_clause` is modelled. -/
inductive LogEvent where
  | lowConfidence (clause_id : String) (confidence : ℚ)
  deriving Repr, DecidableEq

/-- `NLPAnalyzer._create_fallback_analysis`: the safe default record. -/
def create_fallback_analysis (clause : Clause) (error_msg : String) : ClauseAnalysis :=
  { clause_id := clause.clause_id
    clause_text := clause.text
    clause_type := "Other"
    confidence_score := 0
    embeddings := none
    alternative_types := [("Other", 0)] }

/-- Assembly of a `ClauseAnalysis` from a clause, a classifier result and an
optional embedding, as written at lines 87-94 and 197-204 of the source. -/
def build_analysis (clause : Clause) (r : Classification) (emb : Option Embedding) :
    ClauseAnalysis :=
  { clause_id := clause.clause_id
    clause_text := clause.text
    clause_type := r.1
    confidence_score := r.2.1
    embeddings := emb
    alternative_types := r.2.2 }

/-- The inner `try/except` around `generate_embedding` at lines 70-75:
a raised exception becomes a `None` embedding. -/
def tryEmbed (env : Collaborators) (text : String) : Option Embedding :=
  match env.generate_embedding text with
  | .ok v => some v
  | .error _ => none

/-- `NLPAnalyzer.analyze_clause`.  Returns the record (or the propagated
`InferenceError`) together with the warnings logged along the way.  The
classifier raising becomes an `InferenceError` carrying the clause id; an
exception from record construction (the `construct_fault` oracle) is caught
by the outer handler and converted to the fallback record. -/
def analyze_clause (self : NLPAnalyzer) (env : Collaborators) (clause : Clause) :
    Except InferenceError ClauseAnalysis × List LogEvent :=
  match env.predict clause.text with
  | .error e =>
      (.error { message := "Failed to classify clause: " ++ e
                clause_id := clause.clause_id }, [])
  | .ok (clause_type, confidence, alternatives) =>
      ((match env.construct_fault clause with
        | some e => .ok (create_fallback_analysis clause e)
        | none =>
            .ok (build_analysis clause (clause_type, confidence, alternatives)
              (tryEmbed env clause.text))),
       if confidence < self.confidence_threshold then
         [LogEvent.lowConfidence clause.clause_id confidence]
       else [])

/-- True when `predict` raises on this clause's text. -/
def predict_failed (env : Collaborators) (c : Clause) : Bool :=
  match env.predict c.text with
  | .ok _ => false
  | .error _ => true

/-- The per-clause result of Step 1 of `analyze_clauses` (lines 140-153):
the classifier's own triple, or the substitute `("Other", 0.5, [("Other", 0.5)])`
when it raises. -/
def classify_one (env : Collaborators) (c : Clause) : Classification :=
  match env.predict c.text with
  | .ok r => r
  | .error _ => ("Other", 1/2, [("Other", 1/2)])

/-- Step 1 of `analyze_clauses`: classify every clause, substituting
`("Other", 0.5, [("Other", 0.5)])` on per-item failure and counting the
failures (`classification_errors`). -/
def step1_classify (env : Collaborators) : List Clause → List Classification × Nat
  | [] => ([], 0)
  | c :: rest =>
      let tail := step1_classify env rest
      match env.predict c.text with
      | .ok r => (r :: tail.1, tail.2)
      | .error _ => (("Other", 1/2, [("Other", 1/2)]) :: tail.1, tail.2 + 1)

/-- The per-item fallback loop of Step 2 (lines 174-182): individual
embedding calls, `None` on failure, counting failures (`embedding_errors`). -/
def step2_embed_individual (env : Collaborators) : List Clause → List (Option Embedding) × Nat
  | [] => ([], 0)
  | c :: rest =>
      let tail := step2_embed_individual env rest
      match env.generate_embedding c.text with
      | .ok v => (some v :: tail.1, tail.2)
      | .error _ => (none :: tail.1, tail.2 + 1)

/-- Step 2 of `analyze_clauses` (lines 161-183): one batched embedding call;
if it raises, degrade to the per-item loop. -/
def step2_embed (env : Collaborators) (clauses : List Clause) (batch_size : Nat) :
    List (Option Embedding) × Nat :=
  match env.generate_embeddings_batch (clauses.map (·.text)) true batch_size with
  | .ok embs => (embs, 0)
  | .error _ => step2_embed_individual env clauses

/-- Step 3 of `analyze_clauses` (lines 191-208): zip the three sequences
positionally (truncating at the shortest, as Python's `zip` does) and build
each record, replacing a per-item construction failure with the fallback. -/
def step3_combine (env : Collaborators) :
    List Clause → List Classification → List (Option Embedding) → List ClauseAnalysis
  | c :: cs, r :: rs, e :: es =>
      (match env.construct_fault c with
       | some msg => create_fallback_analysis c msg
       | none => build_analysis c r e) :: step3_combine env cs rs es
  | _, _, _ => []

/-- `NLPAnalyzer.analyze_clauses`: the staged batch pipeline.  A critical
exception anywhere in the body (the `batch_fault` oracle) is caught by the
outer handler, which returns one fallback record per input clause. -/
def analyze_clauses (self : NLPAnalyzer) (env : Collaborators) (clauses : List Clause)
    (batch_size : Nat) : List ClauseAnalysis :=
  match env.batch_fault with
  | some e => clauses.map (fun c => create_fallback_analysis c e)
  | none =>
      if clauses.isEmpty then []
      else
        step3_combine env clauses (step1_classify env clauses).1
          (step2_embed env clauses batch_size).1

/-- `NLPAnalyzer.get_low_confidence_clauses`: keep the records whose
confidence is strictly below the configured threshold. -/
def get_low_confidence_clauses (self : NLPAnalyzer) (analyses : List ClauseAnalysis) :
    List ClauseAnalysis :=
  analyses.filter (fun a => decide (a.confidence_score < self.confidence_threshold))

/-- `NLPAnalyzer.get_clauses_by_type`: keep the records of the given type. -/
def get_clauses_by_type (self : NLPAnalyzer) (analyses : List ClauseAnalysis)
    (clause_type : String) : List ClauseAnalysis :=
  analyses.filter (fun a => decide (a.clause_type = clause_type))

/-- `NLPAnalyzer.set_confidence_threshold`: validate the new threshold and
replace it; raising `ValueError` (the spec's InvalidConfiguration) is
modelled as returning `.error`, in which case no updated state exists. -/
def set_confidence_threshold (self : NLPAnalyzer) (threshold : ℚ) :
    Except String NLPAnalyzer :=
  if 0 ≤ threshold ∧ threshold ≤ 1 then
    .ok { self with confidence_threshold := threshold }
  else
    .error "Confidence threshold must be between 0.0 and 1.0"

/-- Python's `round(x, 3)`, modelled over the rationals as rounding
`x * 1000` to the nearest integer. -/
def round3 (x : ℚ) : ℚ := (round (x * 1000) : ℤ) / 1000

/-- The dictionary update `d[t] = d.get(t, 0) + 1`: increment in place if
the key is present (Python dicts keep insertion order), else append. -/
def bump : List (String × Nat) → String → List (String × Nat)
  | [], t => [(t, 1)]
  | (k, n) :: rest, t =>
      if k = t then (k, n + 1) :: rest else (k, n) :: bump rest t

/-- The summary record returned by `get_analysis_summary`; the Python dict
`clause_type_distribution` is an insertion-ordered association list. -/
structure AnalysisSummary where
  total_clauses : Nat
  avg_confidence : ℚ
  low_confidence_count : Nat
  clause_type_distribution : List (String × Nat)
  deriving Repr, DecidableEq

/-- `NLPAnalyzer.get_analysis_summary`. -/
def get_analysis_summary (self : NLPAnalyzer) (analyses : List ClauseAnalysis) :
    AnalysisSummary :=
  if analyses.isEmpty then
    { total_clauses := 0
      avg_confidence := 0
      low_confidence_count := 0
      clause_type_distribution := [] }
  else
    { total_clauses := analyses.length
      avg_confidence := round3 ((analyses.map (·.confidence_score)).sum / analyses.length)
      low_confidence_count :=
        analyses.countP (fun a => decide (a.confidence_score < self.confidence_threshold))
      clause_type_distribution :=
        analyses.foldl (fun d a => bump d a.clause_type) [] }

/-! Concrete fixtures used by witness theorems. -/

/-- A demonstration clause. -/
def demo_clause : Clause :=
  { clause_id := "c-1", text := "The parties shall keep all information confidential." }

/-- Collaborators on which every call succeeds (the healthy scenario of the
spec: classifier returns Confidentiality at 0.92). -/
def demo_env_ok : Collaborators :=
  { predict := fun _ =>
      .ok ("Confidentiality", 92/100, [("Confidentiality", 92/100), ("NDA", 5/100)])
    generate_embedding := fun _ => .ok [1/10, 2/10]
    generate_embeddings_batch := fun texts _ _ => .ok (texts.map fun _ => some [1/10, 2/10])
    construct_fault := fun _ => none
    batch_fault := none }

/-- Collaborators whose classifier always raises. -/
def demo_env_classifier_raises : Collaborators :=
  { predict := fun _ => .error "model unavailable"
    generate_embedding := fun _ => .ok [1/10, 2/10]
    generate_embeddings_batch := fun texts _ _ => .ok (texts.map fun _ => some [1/10, 2/10])
    construct_fault := fun _ => none
    batch_fault := none }

/-! Theorems settling the claims. -/

/-- C3: for every clause and every error context, fallback synthesis returns
a record with clause_type "Other", confidence 0, no embedding, alternatives
[("Other", 0)], and the clause's id and text copied over. -/
theorem fallback_deterministic (clause : Clause) (err : String) :
    (create_fallback_analysis clause err).clause_type = "Other" ∧
    (create_fallback_analysis clause err).confidence_score = 0 ∧
    (create_fallback_analysis clause err).embeddings = none ∧
    (create_fallback_analysis clause err).alternative_types = [("Other", 0)] ∧
    (create_fallback_analysis clause err).clause_id = clause.clause_id ∧
    (create_fallback_analysis clause err).clause_text = clause.text :=
  ⟨rfl, rfl, rfl, rfl, rfl, rfl⟩

/-- C2: `analyze_clause` propagates an `InferenceError` carrying the
clause's id exactly when `predict` raises (returning no record); when
`predict` succeeds it returns a record whatever else fails, and in
particular a record-construction fault yields the fallback record rather
than an exception. -/
theorem analyze_clause_error_discipline (self : NLPAnalyzer) (env : Collaborators)
    (clause : Clause) :
    (∀ e, env.predict clause.text = .error e →
      (analyze_clause self env clause).1 =
        .error { message := "Failed to classify clause: " ++ e
                 clause_id := clause.clause_id }) ∧
    (∀ r : Classification, env.predict clause.text = .ok r →
      ∃ a : ClauseAnalysis, (analyze_clause self env clause).1 = Except.ok a) ∧
    (∀ (r : Classification) (e : String), env.predict clause.text = .ok r →
      env.construct_fault clause = some e →
      (analyze_clause self env clause).1 = .ok (create_fallback_analysis clause e)) := by
  refine ⟨fun e he => ?_, fun r hr => ?_, fun r e hr hf => ?_⟩
  · simp [analyze_clause, he]
  · obtain ⟨t, c, alts⟩ := r
    cases hf : env.construct_fault clause <;> simp [analyze_clause, hr, hf]
  · obtain ⟨t, c, alts⟩ := r
    simp [analyze_clause, hr, hf]

/-- C5: when the classifier succeeds, the record copies the clause's id and
text, carries the classifier's outputs verbatim (alternatives in the
classifier's own order), and its embeddings field is the embedding
collaborator's vector when that call succeeds and `none` when it raises;
an embedding failure neither alters the classification fields nor raises. -/
theorem analyze_clause_success_fields (self : NLPAnalyzer) (env : Collaborators)
    (clause : Clause) (t : String) (conf : ℚ) (alts : List (String × ℚ))
    (hp : env.predict clause.text = .ok (t, conf, alts))
    (hcf : env.construct_fault clause = none) :
    ∃ a : ClauseAnalysis, (analyze_clause self env clause).1 = Except.ok a ∧
      a.clause_id = clause.clause_id ∧ a.clause_text = clause.text ∧
      a.clause_type = t ∧ a.confidence_score = conf ∧ a.alternative_types = alts ∧
      (∀ v, env.generate_embedding clause.text = .ok v → a.embeddings = some v) ∧
      (∀ e, env.generate_embedding clause.text = .error e → a.embeddings = none) := by
  refine ⟨build_analysis clause (t, conf, alts) (tryEmbed env clause.text), ?_, rfl, rfl,
    rfl, rfl, rfl, fun v hv => ?_, fun e he => ?_⟩
  · simp [analyze_clause, hp, hcf]
  · simp [build_analysis, tryEmbed, hv]
  · simp [build_analysis, tryEmbed, he]

/-- C5 witness: the healthy single-clause scenario at threshold 0.75. -/
theorem analyze_clause_success_fields_witness :
    ∃ a : ClauseAnalysis, (analyze_clause ⟨3/4⟩ demo_env_ok demo_clause).1 = Except.ok a ∧
      a.clause_id = demo_clause.clause_id ∧ a.clause_text = demo_clause.text ∧
      a.clause_type = "Confidentiality" ∧ a.confidence_score = 92/100 ∧
      a.alternative_types = [("Confidentiality", 92/100), ("NDA", 5/100)] ∧
      (∀ v, demo_env_ok.generate_embedding demo_clause.text = .ok v → a.embeddings = some v) ∧
      (∀ e, demo_env_ok.generate_embedding demo_clause.text = .error e → a.embeddings = none) :=
  analyze_clause_success_fields ⟨3/4⟩ demo_env_ok demo_clause
    "Confidentiality" (92/100) [("Confidentiality", 92/100), ("NDA", 5/100)] rfl rfl

/-- C10: the record (or error) component of `analyze_clause` is identical
for any two configured thresholds, all collaborator behaviour held fixed:
the threshold influences only the logged warnings. -/
theorem analyze_clause_threshold_noninterference (a1 a2 : NLPAnalyzer)
    (env : Collaborators) (clause : Clause) :
    (analyze_clause a1 env clause).1 = (analyze_clause a2 env clause).1 := by
  unfold analyze_clause
  cases env.predict clause.text with
  | error e => rfl
  | ok r =>
      obtain ⟨t, c, alts⟩ := r
      cases env.construct_fault clause <;> simp

/-- C6: `set_confidence_threshold` fails (with the InvalidConfiguration
message, returning no updated state) exactly when the value is outside
[0, 1], and on success the stored threshold equals the new value. -/
theorem set_confidence_threshold_spec (self : NLPAnalyzer) (t : ℚ) :
    (¬ (0 ≤ t ∧ t ≤ 1) ↔ set_confidence_threshold self t =
        .error "Confidence threshold must be between 0.0 and 1.0") ∧
    (0 ≤ t → t ≤ 1 → set_confidence_threshold self t = .ok { confidence_threshold := t }) := by
  constructor
  · constructor
    · intro h; simp [set_confidence_threshold, h]
    · intro h hc
      simp [set_confidence_threshold, hc] at h
  · intro h0 h1
    simp [set_confidence_threshold, h0, h1]

/-- C6 witness: the spec's boundary cases: -0.1 and 1.1 fail, 0 and 1
succeed, and success stores exactly the new value. -/
theorem set_confidence_threshold_spec_witness :
    set_confidence_threshold ⟨3/4⟩ (-1/10) =
      .error "Confidence threshold must be between 0.0 and 1.0" ∧
    set_confidence_threshold ⟨3/4⟩ (11/10) =
      .error "Confidence threshold must be between 0.0 and 1.0" ∧
    set_confidence_threshold ⟨3/4⟩ 0 = .ok ⟨0⟩ ∧
    set_confidence_threshold ⟨3/4⟩ 1 = .ok ⟨1⟩ :=
  ⟨(set_confidence_threshold_spec ⟨3/4⟩ (-1/10)).1.mp (by norm_num),
   (set_confidence_threshold_spec ⟨3/4⟩ (11/10)).1.mp (by norm_num),
   (set_confidence_threshold_spec ⟨3/4⟩ 0).2 (by norm_num) (by norm_num),
   (set_confidence_threshold_spec ⟨3/4⟩ 1).2 (by norm_num) (by norm_num)⟩

/-- C7: `get_low_confidence_clauses` returns a subsequence of the input
(original relative order preserved) containing exactly the records whose
confidence is strictly below the current threshold. -/
theorem low_confidence_filter_spec (self : NLPAnalyzer) (analyses : List ClauseAnalysis) :
    (get_low_confidence_clauses self analyses).Sublist analyses ∧
    ∀ a : ClauseAnalysis, a ∈ get_low_confidence_clauses self analyses ↔
      a ∈ analyses ∧ a.confidence_score < self.confidence_threshold := by
  constructor
  · exact List.filter_sublist analyses
  · intro a
    simp [get_low_confidence_clauses, List.mem_filter]

/-! Structural lemmas about the batch pipeline stages. -/

/-- Step 1 produces exactly the per-clause classification results, in input
order. -/
lemma step1_classify_fst (env : Collaborators) (clauses : List Clause) :
    (step1_classify env clauses).1 = clauses.map (classify_one env) := by
  induction clauses with
  | nil => rfl
  | cons c rest ih =>
      cases h : env.predict c.text <;>
        simp [step1_classify, classify_one, h, ih]

/-- Step 1's error counter counts exactly the clauses on which the
classifier raises. -/
lemma step1_classify_snd (env : Collaborators) (clauses : List Clause) :
    (step1_classify env clauses).2 = clauses.countP (predict_failed env) := by
  induction clauses with
  | nil => rfl
  | cons c rest ih =>
      cases h : env.predict c.text <;>
        simp [step1_classify, predict_failed, h, ih, List.countP_cons]

/-- The per-item embedding loop produces one optional embedding per clause,
in input order. -/
lemma step2_embed_individual_fst (env : Collaborators) (clauses : List Clause) :
    (step2_embed_individual env clauses).1 = clauses.map (fun c => tryEmbed env c.text) := by
  induction clauses with
  | nil => rfl
  | cons c rest ih =>
      cases h : env.generate_embedding c.text <;>
        simp [step2_embed_individual, tryEmbed, h, ih]

/-- Step 2 yields one optional embedding per clause provided the batched
collaborator call, when it succeeds, is index-aligned with its input. -/
lemma step2_embed_length (env : Collaborators) (clauses : List Clause) (bs : Nat)
    (halign : ∀ l, env.generate_embeddings_batch (clauses.map (·.text)) true bs = .ok l →
      l.length = clauses.length) :
    (step2_embed env clauses bs).1.length = clauses.length := by
  unfold step2_embed
  cases h : env.generate_embeddings_batch (clauses.map (·.text)) true bs with
  | ok l => simpa using halign l h
  | error e => simp [step2_embed_individual_fst]

/-- Step 3 copies each clause's id and text into its record, whichever
branch (normal assembly or per-item fallback) is taken. -/
lemma step3_combine_maps (env : Collaborators) (cs : List Clause) :
    ∀ (rs : List Classification) (es : List (Option Embedding)),
      rs.length = cs.length → es.length = cs.length →
      (step3_combine env cs rs es).map (fun a => a.clause_id) =
        cs.map (fun c => c.clause_id) ∧
      (step3_combine env cs rs es).map (fun a => a.clause_text) =
        cs.map (fun c => c.text) := by
  induction cs with
  | nil =>
      intro rs es h1 h2
      cases rs with
      | nil =>
          cases es with
          | nil => simp [step3_combine]
          | cons e es => simp at h2
      | cons r rs => simp at h1
  | cons c cs ih =>
      intro rs es h1 h2
      cases rs with
      | nil => simp at h1
      | cons r rs =>
          cases es with
          | nil => simp at h2
          | cons e es =>
              have h1' : rs.length = cs.length := by simpa using h1
              have h2' : es.length = cs.length := by simpa using h2
              obtain ⟨hid, htext⟩ := ih rs es h1' h2'
              cases hf : env.construct_fault c <;>
                simp [step3_combine, hf, hid, htext,
                  create_fallback_analysis, build_analysis]

/-- Step 3 preserves the batch's length when its three inputs are aligned. -/
lemma step3_combine_length (env : Collaborators) (cs : List Clause)
    (rs : List Classification) (es : List (Option Embedding))
    (h1 : rs.length = cs.length) (h2 : es.length = cs.length) :
    (step3_combine env cs rs es).length = cs.length := by
  have h := (step3_combine_maps env cs rs es h1 h2).1
  simpa using congrArg List.length h

/-- With no critical batch fault, `analyze_clauses` is exactly the staged
pipeline. -/
lemma analyze_clauses_eq (self : NLPAnalyzer) (env : Collaborators)
    (clauses : List Clause) (bs : Nat) (hbf : env.batch_fault = none) :
    analyze_clauses self env clauses bs =
      step3_combine env clauses (step1_classify env clauses).1
        (step2_embed env clauses bs).1 := by
  unfold analyze_clauses
  rw [hbf]
  cases clauses with
  | nil => rfl
  | cons c rest => rfl

/-- Positional characterisation of Step 3 through optional indexing. -/
lemma step3_combine_getElem? (env : Collaborators) (cs : List Clause) :
    ∀ (rs : List Classification) (es : List (Option Embedding)) (i : Nat)
      (c : Clause) (r : Classification) (e : Option Embedding),
      cs[i]? = some c → rs[i]? = some r → es[i]? = some e →
      (step3_combine env cs rs es)[i]? = some
        (match env.construct_fault c with
         | some msg => create_fallback_analysis c msg
         | none => build_analysis c r e) := by
  induction cs with
  | nil => intro rs es i c r e hc; simp at hc
  | cons c0 cs ih =>
      intro rs es i c r e hc hr he
      cases rs with
      | nil => simp at hr
      | cons r0 rs =>
          cases es with
          | nil => simp at he
          | cons e0 es =>
              cases i with
              | zero =>
                  simp only [List.getElem?_cons_zero, Option.some.injEq] at hc hr he
                  subst hc; subst hr; subst he
                  simp [step3_combine]
              | succ i =>
                  simp only [List.getElem?_cons_succ] at hc hr he
                  simpa [step3_combine] using ih rs es i c r e hc hr he

/-- C9: on the empty input, `analyze_clauses` returns the empty list, and
does so identically for every collaborator behaviour and batch size — in
particular without consulting the classifier or the embedding generator. -/
theorem analyze_batch_empty (self : NLPAnalyzer) (env env2 : Collaborators)
    (bs bs2 : Nat) :
    analyze_clauses self env [] bs = [] ∧
    analyze_clauses self env [] bs = analyze_clauses self env2 [] bs2 := by
  have h : ∀ (e : Collaborators) (b : Nat), analyze_clauses self e [] b = [] := by
    intro e b
    unfold analyze_clauses
    cases e.batch_fault <;> simp
  exact ⟨h env bs, (h env bs).trans (h env2 bs2).symm⟩

/-- C1: whenever the batched embedding call is index-aligned with its input
texts, `analyze_clauses` on a non-empty input returns one record per input
clause, with each record's id and text copied from the clause at the same
index. -/
theorem analyze_batch_alignment (self : NLPAnalyzer) (env : Collaborators)
    (clauses : List Clause) (batch_size : Nat)
    (hne : clauses ≠ [])
    (halign : ∀ l,
      env.generate_embeddings_batch (clauses.map (·.text)) true batch_size = .ok l →
      l.length = clauses.length) :
    (analyze_clauses self env clauses batch_size).length = clauses.length ∧
    (analyze_clauses self env clauses batch_size).map (fun a => a.clause_id) =
      clauses.map (fun c => c.clause_id) ∧
    (analyze_clauses self env clauses batch_size).map (fun a => a.clause_text) =
      clauses.map (fun c => c.text) := by
  cases hbf : env.batch_fault with
  | some e =>
      unfold analyze_clauses
      rw [hbf]
      simp [List.map_map, Function.comp, create_fallback_analysis]
  | none =>
      rw [analyze_clauses_eq self env clauses batch_size hbf]
      have h1 : (step1_classify env clauses).1.length = clauses.length := by
        rw [step1_classify_fst]; simp
      have h2 : (step2_embed env clauses batch_size).1.length = clauses.length :=
        step2_embed_length env clauses batch_size halign
      exact ⟨step3_combine_length env clauses _ _ h1 h2,
        (step3_combine_maps env clauses _ _ h1 h2).1,
        (step3_combine_maps env clauses _ _ h1 h2).2⟩

/-- C1 witness: a singleton batch under the healthy collaborators. -/
theorem analyze_batch_alignment_witness :
    (analyze_clauses ⟨3/4⟩ demo_env_ok [demo_clause] 32).length = [demo_clause].length ∧
    (analyze_clauses ⟨3/4⟩ demo_env_ok [demo_clause] 32).map (fun a => a.clause_id) =
      [demo_clause].map (fun c => c.clause_id) ∧
    (analyze_clauses ⟨3/4⟩ demo_env_ok [demo_clause] 32).map (fun a => a.clause_text) =
      [demo_clause].map (fun c => c.text) :=
  analyze_batch_alignment ⟨3/4⟩ demo_env_ok [demo_clause] 32 (by simp)
    (fun l h => by
      simp only [demo_env_ok, Except.ok.injEq] at h
      subst h
      simp)

/-- Collaborators whose classifier raises exactly on the text "bad" and
succeeds elsewhere, with the batched embedding call succeeding. -/
def demo_env_mixed : Collaborators :=
  { predict := fun s =>
      if s = "bad" then .error "boom"
      else .ok ("Confidentiality", 92/100, [("Confidentiality", 92/100)])
    generate_embedding := fun _ => .ok [1/10]
    generate_embeddings_batch := fun texts _ _ => .ok (texts.map fun _ => some [1/10])
    construct_fault := fun _ => none
    batch_fault := none }

/-- Five clauses of which exactly the second has the failing text. -/
def demo_clauses5 : List Clause :=
  [⟨"c1", "a"⟩, ⟨"c2", "bad"⟩, ⟨"c3", "c"⟩, ⟨"c4", "d"⟩, ⟨"c5", "e"⟩]

/-- C4: in the batch pipeline (no critical fault, no construction fault,
batched embedding succeeding index-aligned), each clause on which the
classifier raises yields a record with clause_type "Other", confidence 0.5
and alternatives [("Other", 0.5)], each clause on which it succeeds yields
a record carrying the classifier's own outputs, and Step 1's
classification-error counter equals the number of failing clauses. -/
theorem batch_classification_isolation (self : NLPAnalyzer) (env : Collaborators)
    (clauses : List Clause) (bs : Nat)
    (hbf : env.batch_fault = none)
    (hcf : ∀ c, env.construct_fault c = none)
    (embs : List (Option Embedding))
    (hemb : env.generate_embeddings_batch (clauses.map (·.text)) true bs = .ok embs)
    (hlen : embs.length = clauses.length) :
    (step1_classify env clauses).2 = clauses.countP (predict_failed env) ∧
    ∀ (i : Nat) (c : Clause), clauses[i]? = some c →
      (∀ e, env.predict c.text = .error e →
        ∃ a : ClauseAnalysis, (analyze_clauses self env clauses bs)[i]? = some a ∧
          a.clause_type = "Other" ∧ a.confidence_score = 1/2 ∧
          a.alternative_types = [("Other", 1/2)]) ∧
      (∀ (t : String) (conf : ℚ) (alts : List (String × ℚ)),
        env.predict c.text = .ok (t, conf, alts) →
        ∃ a : ClauseAnalysis, (analyze_clauses self env clauses bs)[i]? = some a ∧
          a.clause_type = t ∧ a.confidence_score = conf ∧
          a.alternative_types = alts) := by
  have hstep2 : (step2_embed env clauses bs).1 = embs := by
    unfold step2_embed
    rw [hemb]
  have hresult : ∀ (i : Nat) (c : Clause), clauses[i]? = some c →
      (analyze_clauses self env clauses bs)[i]? =
        some (build_analysis c (classify_one env c)
          (embs.getD i none)) := by
    intro i c hc
    have hi : i < clauses.length := by
      rcases List.getElem?_eq_some_iff.mp hc with ⟨hlt, _⟩
      exact hlt
    have hie : i < embs.length := by omega
    have hr : (step1_classify env clauses).1[i]? = some (classify_one env c) := by
      rw [step1_classify_fst]
      simp [List.getElem?_map, hc]
    have he : (step2_embed env clauses bs).1[i]? = some (embs.getD i none) := by
      rw [hstep2]
      rw [List.getElem?_eq_getElem hie]
      simp [List.getD, List.getElem?_eq_getElem hie]
    rw [analyze_clauses_eq self env clauses bs hbf]
    have h3 := step3_combine_getElem? env clauses (step1_classify env clauses).1
      (step2_embed env clauses bs).1 i c (classify_one env c) (embs.getD i none) hc hr he
    rw [h3, hcf c]
  refine ⟨step1_classify_snd env clauses, fun i c hc => ⟨fun e he => ?_, fun t conf alts ht => ?_⟩⟩
  · exact ⟨_, hresult i c hc, by simp [build_analysis, classify_one, he]⟩
  · exact ⟨_, hresult i c hc, by simp [build_analysis, classify_one, ht]⟩

/-- C4 witness: the spec's scenario, one of five clauses failing
classification: the failing clause's record is ("Other", 0.5), a succeeding
clause's record is untouched, and the error counter is 1. -/
theorem batch_classification_isolation_witness :
    (step1_classify demo_env_mixed demo_clauses5).2 = 1 ∧
    (∃ a : ClauseAnalysis,
      (analyze_clauses ⟨3/4⟩ demo_env_mixed demo_clauses5 32)[1]? = some a ∧
      a.clause_type = "Other" ∧ a.confidence_score = 1/2 ∧
      a.alternative_types = [("Other", 1/2)]) ∧
    (∃ a : ClauseAnalysis,
      (analyze_clauses ⟨3/4⟩ demo_env_mixed demo_clauses5 32)[0]? = some a ∧
      a.clause_type = "Confidentiality" ∧ a.confidence_score = 92/100 ∧
      a.alternative_types = [("Confidentiality", 92/100)]) := by
  have h := batch_classification_isolation ⟨3/4⟩ demo_env_mixed demo_clauses5 32 rfl
    (fun _ => rfl) ((demo_clauses5.map (fun c => c.text)).map (fun _ => some [1/10]))
    rfl (by simp [demo_clauses5])
  refine ⟨?_, ?_, ?_⟩
  · rw [h.1]; rfl
  · exact (h.2 1 ⟨"c2", "bad"⟩ rfl).1 "boom" rfl
  · exact (h.2 0 ⟨"c1", "a"⟩ rfl).2 "Confidentiality" (92/100)
      [("Confidentiality", 92/100)] rfl

/-! Lemmas about the clause-type distribution dictionary. -/

/-- One `bump` increments the count stored under the bumped key (starting it
at 1 when absent) and leaves every other key's count unchanged. -/
lemma lookup_bump (d : List (String × Nat)) (s t : String) :
    (bump d s).lookup t =
      if s = t then some ((d.lookup t).getD 0 + 1) else d.lookup t := by
  induction d with
  | nil =>
      by_cases h : s = t
      · have hb : (t == s) = true := by simp [h.symm]
        simp [bump, List.lookup, h, hb]
      · have hb : (t == s) = false := beq_false_of_ne (fun hh => h hh.symm)
        simp [bump, List.lookup, h, hb]
  | cons p rest ih =>
      obtain ⟨k, n⟩ := p
      by_cases hks : k = s
      · by_cases htk : t = k
        · have hst : s = t := hks.symm.trans htk.symm
          have hb : (t == k) = true := by simp [htk]
          simp [bump, List.lookup, hks, hb, hst]
        · have hst : ¬ s = t := fun h => htk (h.symm.trans hks.symm)
          have hb : (t == k) = false := beq_false_of_ne htk
          have hb2 : (t == s) = false := beq_false_of_ne (fun hh => hst hh.symm)
          simp [bump, List.lookup, hks, hb, hb2, hst]
      · by_cases htk : t = k
        · have hst : ¬ s = t := fun h => hks (htk.symm.trans h.symm)
          have hb : (t == k) = true := by simp [htk]
          simp [bump, List.lookup, hks, hb, hst]
        · have hb : (t == k) = false := beq_false_of_ne htk
          simp [bump, List.lookup, hks, hb, ih]

/-- Folding `bump` over a list of keys yields, for every key, the number of
its occurrences added to whatever the accumulator already stored. -/
lemma lookup_foldl_bump (ts : List String) :
    ∀ (d : List (String × Nat)) (t : String),
      (ts.foldl bump d).lookup t =
        match d.lookup t with
        | some n => some (n + ts.count t)
        | none => if 0 < ts.count t then some (ts.count t) else none := by
  induction ts with
  | nil =>
      intro d t
      cases h : d.lookup t <;> simp [h]
  | cons s ts ih =>
      intro d t
      rw [List.foldl_cons, ih (bump d s) t, lookup_bump]
      by_cases hst : s = t
      · subst hst
        cases h : d.lookup s <;>
          simp [h, List.count_cons_self, Nat.add_assoc, Nat.add_comm, Nat.add_left_comm]
      · have hne : t ≠ s := fun h => hst h.symm
        cases h : d.lookup t <;>
          simp [h, hst, List.count_cons_of_ne hne]

/-- C8: the summary's total equals the input length, its low-confidence
count equals the number of records strictly below the threshold, its
average confidence is the arithmetic mean rounded to 3 decimals on every
non-empty input, its type distribution maps each occurring clause type to
that type's number of occurrences (and holds no absent type), and the empty
input yields the all-zero/empty summary rather than an error. -/
theorem summary_spec (self : NLPAnalyzer) (analyses : List ClauseAnalysis) :
    get_analysis_summary self [] =
      { total_clauses := 0, avg_confidence := 0, low_confidence_count := 0,
        clause_type_distribution := [] } ∧
    (get_analysis_summary self analyses).total_clauses = analyses.length ∧
    (get_analysis_summary self analyses).low_confidence_count =
      analyses.countP (fun a => decide (a.confidence_score < self.confidence_threshold)) ∧
    (analyses ≠ [] → (get_analysis_summary self analyses).avg_confidence =
      round3 ((analyses.map (fun a => a.confidence_score)).sum / analyses.length)) ∧
    ∀ t : String,
      (get_analysis_summary self analyses).clause_type_distribution.lookup t =
        if 0 < (analyses.map (fun a => a.clause_type)).count t
        then some ((analyses.map (fun a => a.clause_type)).count t) else none := by
  refine ⟨rfl, ?_, ?_, ?_, ?_⟩
  · by_cases h : analyses = [] <;> simp [get_analysis_summary, h]
  · by_cases h : analyses = [] <;> simp [get_analysis_summary, h]
  · intro h
    simp [get_analysis_summary, h]
  · intro t
    by_cases h : analyses = []
    · simp [get_analysis_summary, h, List.lookup]
    · have hne : analyses.isEmpty = false := by
        cases analyses with
        | nil => exact absurd rfl h
        | cons a rest => rfl
      simp only [get_analysis_summary, hne, Bool.false_eq_true, if_false]
      rw [← List.foldl_map (fun a => a.clause_type) bump analyses []]
      rw [lookup_foldl_bump (analyses.map (fun a => a.clause_type)) [] t]
      simp [List.lookup]

/-- A minimal record with a given id and confidence, for the filter
scenario. -/
def demo_record (id : String) (c : ℚ) : ClauseAnalysis :=
  { clause_id := id, clause_text := id, clause_type := "Other",
    confidence_score := c, embeddings := none, alternative_types := [] }

/-- C7 witness: the spec's scenario: confidences [0.9, 0.5, 0.8, 0.3] at
threshold 0.75 give exactly the 0.5 and 0.3 records, in original order. -/
theorem low_confidence_filter_witness :
    get_low_confidence_clauses ⟨3/4⟩
      [demo_record "a" (9/10), demo_record "b" (1/2),
       demo_record "c" (8/10), demo_record "d" (3/10)] =
      [demo_record "b" (1/2), demo_record "d" (3/10)] ∧
    (demo_record "b" (1/2) ∈ get_low_confidence_clauses ⟨3/4⟩
        [demo_record "a" (9/10), demo_record "b" (1/2),
         demo_record "c" (8/10), demo_record "d" (3/10)] ↔
      demo_record "b" (1/2) ∈
        [demo_record "a" (9/10), demo_record "b" (1/2),
         demo_record "c" (8/10), demo_record "d" (3/10)] ∧
      (demo_record "b" (1/2)).confidence_score < (3 : ℚ)/4) :=
  ⟨by norm_num [get_low_confidence_clauses, List.filter_cons, demo_record],
   (low_confidence_filter_spec ⟨3/4⟩
      [demo_record "a" (9/10), demo_record "b" (1/2),
       demo_record "c" (8/10), demo_record "d" (3/10)]).2 (demo_record "b" (1/2))⟩
